import Mathlib

/-!
Verification development for the browser-based learning-management demo
(three React/TypeScript application variants: src/src/App.tsx and the two
unnamed variants, here called V2 for src/unnamed/part_000 and V1 for
src/unnamed/part_001).

The embedding is shallow: React state updates become explicit state passing,
the single network await of each agent-gateway call becomes an explicit
outcome parameter (one outcome per call, so the absence of retries is
structural), `Date.now()` / `Math.random()` become explicit parameters, and
`localStorage` becomes an `Option String` per key holding the serialized
value.  JavaScript `x || d` on strings and numbers is modelled by `jsOrString`
and `jsOrInt` (empty string and zero are falsy); `x || d` on possibly-missing
arrays and objects is `Option.getD` (an empty array is truthy in JS).
JSON numbers are modelled as integers, which covers every numeric value the
application stores.
-/

namespace LMSDemo

/-- JSON value tree, the model of the values handled by `JSON.parse` /
`JSON.stringify` and by the LLM-reply extraction helper. -/
inductive Json where
  | null
  | bool (b : Bool)
  | num (n : Int)
  | str (s : String)
  | arr (items : List Json)
  | obj (members : List (String × Json))

/-- Escape one character the way `JSON.stringify` does for the characters
that occur in this application's data. -/
def escapeChar (c : Char) : String :=
  if c = '"' then "\\\""
  else if c = '\\' then "\\\\"
  else if c = '\n' then "\\n"
  else if c = '\t' then "\\t"
  else if c = '\r' then "\\r"
  else String.mk [c]

/-- Render a JSON string literal with quotes, as `JSON.stringify` does. -/
def renderString (s : String) : String :=
  "\"" ++ String.join (s.data.map escapeChar) ++ "\""

mutual

/-- Model of `JSON.stringify` (no extra whitespace, members in insertion
order). -/
def Json.render : Json → String
  | .null => "null"
  | .bool b => if b then "true" else "false"
  | .num n => toString n
  | .str s => renderString s
  | .arr items => "[" ++ renderItems items ++ "]"
  | .obj members => "\x7b" ++ renderMembers members ++ "\x7d"

def renderItems : List Json → String
  | [] => ""
  | [j] => Json.render j
  | j :: rest => Json.render j ++ "," ++ renderItems rest

def renderMembers : List (String × Json) → String
  | [] => ""
  | [(k, v)] => renderString k ++ ":" ++ Json.render v
  | (k, v) :: rest => renderString k ++ ":" ++ Json.render v ++ "," ++ renderMembers rest

end

def lbrace : Char := Char.ofNat 123

def rbrace : Char := Char.ofNat 125

def isWsChar (c : Char) : Bool :=
  c = ' ' || c = '\n' || c = '\t' || c = '\r'

def skipWs (cs : List Char) : List Char :=
  cs.dropWhile isWsChar

/-- Parse the body of a JSON string literal (after the opening quote) up to
the closing quote, handling backslash escapes. -/
def parseStringBody : List Char → Option (List Char × List Char)
  | [] => none
  | c :: rest =>
    if c = '"' then some ([], rest)
    else if c = '\\' then
      match rest with
      | [] => none
      | e :: rest2 =>
        let ec : Char := if e = 'n' then '\n' else if e = 't' then '\t' else if e = 'r' then '\r' else e
        match parseStringBody rest2 with
        | some (s, r) => some (ec :: s, r)
        | none => none
    else
      match parseStringBody rest with
      | some (s, r) => some (c :: s, r)
      | none => none

def digitsToNat (ds : List Char) : Nat :=
  ds.foldl (fun acc c => acc * 10 + (c.toNat - '0'.toNat)) 0

/-- Parse a JSON integer (optional minus sign followed by digits). -/
def parseNumber (cs : List Char) : Option (Int × List Char) :=
  match cs with
  | '-' :: rest =>
    let p := rest.span Char.isDigit
    if p.1.isEmpty then none else some (-(digitsToNat p.1 : Int), p.2)
  | _ =>
    let p := cs.span Char.isDigit
    if p.1.isEmpty then none else some ((digitsToNat p.1 : Int), p.2)

mutual

/-- Fuel-indexed recursive-descent JSON value parser. -/
def parseValue : Nat → List Char → Option (Json × List Char)
  | 0, _ => none
  | fuel + 1, cs =>
    match skipWs cs with
    | [] => none
    | c :: rest =>
      if c = 'n' then
        match rest with
        | 'u' :: 'l' :: 'l' :: r => some (.null, r)
        | _ => none
      else if c = 't' then
        match rest with
        | 'r' :: 'u' :: 'e' :: r => some (.bool true, r)
        | _ => none
      else if c = 'f' then
        match rest with
        | 'a' :: 'l' :: 's' :: 'e' :: r => some (.bool false, r)
        | _ => none
      else if c = '"' then
        match parseStringBody rest with
        | some (s, r) => some (.str (String.mk s), r)
        | none => none
      else if c = '[' then
        match skipWs rest with
        | ']' :: r2 => some (.arr [], r2)
        | r2 => parseItems fuel r2 []
      else if c = lbrace then
        let r2 := skipWs rest
        match r2 with
        | d :: r3 => if d = rbrace then some (.obj [], r3) else parseMembers fuel r2 []
        | [] => none
      else if c = '-' || c.isDigit then
        match parseNumber (c :: rest) with
        | some (n, r) => some (.num n, r)
        | none => none
      else none

/-- Parse the remaining comma-separated items of a JSON array. -/
def parseItems : Nat → List Char → List Json → Option (Json × List Char)
  | 0, _, _ => none
  | fuel + 1, cs, acc =>
    match parseValue fuel cs with
    | none => none
    | some (v, rest) =>
      match skipWs rest with
      | ',' :: r2 => parseItems fuel r2 (acc ++ [v])
      | ']' :: r2 => some (.arr (acc ++ [v]), r2)
      | _ => none

/-- Parse the remaining comma-separated members of a JSON object. -/
def parseMembers : Nat → List Char → List (String × Json) → Option (Json × List Char)
  | 0, _, _ => none
  | fuel + 1, cs, acc =>
    match skipWs cs with
    | [] => none
    | c :: rest =>
      if c = '"' then
        match parseStringBody rest with
        | none => none
        | some (k, r2) =>
          match skipWs r2 with
          | ':' :: r3 =>
            match parseValue fuel r3 with
            | none => none
            | some (v, r4) =>
              match skipWs r4 with
              | [] => none
              | d :: r5 =>
                if d = ',' then parseMembers fuel r5 (acc ++ [(String.mk k, v)])
                else if d = rbrace then some (.obj (acc ++ [(String.mk k, v)]), r5)
                else none
          | _ => none
      else none

end

/-- Model of `JSON.parse`: the whole input (up to trailing whitespace) must be
one JSON value, otherwise the parse fails (`JSON.parse` throws). -/
def parseJson (s : String) : Option Json :=
  match parseValue (2 * s.length + 2) s.data with
  | some (j, rest) => if (skipWs rest).isEmpty then some j else none
  | none => none

/-- The first brace-delimited block of a string: from the first opening brace
to the last closing brace, the first match of the greedy regex the spec
describes.  `none` when no such block exists. -/
def extractBraced (s : String) : Option String :=
  let cs := s.data
  match cs.findIdx? (fun c => c = lbrace) with
  | none => none
  | some i =>
    match cs.reverse.findIdx? (fun c => c = rbrace) with
    | none => none
    | some jr =>
      let j := cs.length - 1 - jr
      if i ≤ j then some (String.mk ((cs.drop i).take (j - i + 1))) else none

/-- Modelled from the spec: the helper `parseLLMJson` is imported from
`src/utils/jsonParser`, a file of this repository that is not under `src/`;
only its call sites are.  Per the spec it "tries direct parse, then
regex-extracts the first brace-delimited block, then fails soft", returning a
safe default (here `none`) for unparsable input instead of throwing. -/
def parseLLMJson (s : String) : Option Json :=
  match parseJson s with
  | some j => some j
  | none =>
    match extractBraced s with
    | some t => parseJson t
    | none => none

/-- JavaScript `s || d` for strings: the empty string is falsy. -/
def jsOrString (v : Option String) (d : String) : String :=
  match v with
  | some s => if s = "" then d else s
  | none => d

/-- JavaScript `n || d` for numbers: zero is falsy. -/
def jsOrInt (v : Option Int) (d : Int) : Int :=
  match v with
  | some n => if n = 0 then d else n
  | none => d

/-- Quiz question of the part_000 variant (`QuizQuestion` interface); `qtype`
stands for the `type` field, one of 'multiple-choice' | 'true-false' |
'short-answer'. -/
structure QuizQuestion where
  id : String
  question : String
  qtype : String
  options : Option (List String)
  correctAnswer : String
  explanation : Option String
deriving DecidableEq

/-- Training module of the part_000 variant (`Module` interface). -/
structure Module where
  id : String
  title : String
  description : String
  content : String
  quiz : List QuizQuestion
  assignedTo : List String
  createdBy : String
  createdAt : String
  updatedAt : String
  isActive : Bool
deriving DecidableEq

/-- Recorded quiz answer of the part_000 variant (the element type of
`Enrollment.answers`). -/
structure Answer where
  questionId : String
  answer : String
  isCorrect : Bool
  isMarked : Bool
deriving DecidableEq

/-- Enrollment record of the part_000 variant (`Enrollment` interface).
`updatedAt` is not declared in the TypeScript interface but is added
dynamically by the first `updateProgress` definition, so it is carried here
as an optional field. -/
structure Enrollment where
  id : String
  userId : String
  moduleId : String
  progress : Int
  completed : Bool
  score : Option Int
  startedAt : String
  completedAt : Option String
  answers : Option (List Answer)
  updatedAt : Option String
deriving DecidableEq

/-- A key/value member that is present only when the value is; models how
`JSON.stringify` omits `undefined` fields. -/
def optField (k : String) (v : Option Json) : List (String × Json) :=
  match v with
  | some j => [(k, j)]
  | none => []

def encodeAnswer (a : Answer) : Json :=
  .obj [("questionId", .str a.questionId), ("answer", .str a.answer),
        ("isCorrect", .bool a.isCorrect), ("isMarked", .bool a.isMarked)]

/-- JSON encoding of an enrollment record, fields in declaration order with
absent optional fields omitted (the canonical member order of the model). -/
def encodeEnrollment (e : Enrollment) : Json :=
  .obj ([("id", .str e.id), ("userId", .str e.userId), ("moduleId", .str e.moduleId),
         ("progress", .num e.progress), ("completed", .bool e.completed)]
    ++ optField "score" (e.score.map Json.num)
    ++ [("startedAt", .str e.startedAt)]
    ++ optField "completedAt" (e.completedAt.map Json.str)
    ++ optField "answers" (e.answers.map (fun l => Json.arr (l.map encodeAnswer)))
    ++ optField "updatedAt" (e.updatedAt.map Json.str))

def encodeEnrollments (es : List Enrollment) : Json :=
  .arr (es.map encodeEnrollment)

def encodeQuizQuestion (q : QuizQuestion) : Json :=
  .obj ([("id", .str q.id), ("question", .str q.question), ("type", .str q.qtype)]
    ++ optField "options" (q.options.map (fun l => Json.arr (l.map Json.str)))
    ++ [("correctAnswer", .str q.correctAnswer)]
    ++ optField "explanation" (q.explanation.map Json.str))

def encodeModule (m : Module) : Json :=
  .obj [("id", .str m.id), ("title", .str m.title), ("description", .str m.description),
        ("content", .str m.content), ("quiz", .arr (m.quiz.map encodeQuizQuestion)),
        ("assignedTo", .arr (m.assignedTo.map Json.str)), ("createdBy", .str m.createdBy),
        ("createdAt", .str m.createdAt), ("updatedAt", .str m.updatedAt),
        ("isActive", .bool m.isActive)]

def encodeModules (ms : List Module) : Json :=
  .arr (ms.map encodeModule)

/-- The slice of part_000 application state the persistence claims are about:
the two arrays together with the local-storage values under keys
'hr_modules_v2' and 'hr_enrollments_v2' (none models an absent key). -/
structure StoreV2 where
  modules : List Module
  enrollments : List Enrollment
  modulesStorage : Option String
  enrollmentsStorage : Option String
deriving DecidableEq

/-- Input of the part_000 module-creation form (`moduleForm`). -/
structure ModuleForm where
  title : String
  description : String
  content : String
  quiz : List QuizQuestion

/-- part_000 `createModule`: appends the new module and writes the key
'hr_modules_v2' with the serialized updated array.  `creatorId`, `now` and
`newId` stand for `currentUser!.id`, `new Date().toISOString()` and
`generateRandomId()`. -/
def V2.createModule (st : StoreV2) (form : ModuleForm) (assignedUsers : List String)
    (creatorId now newId : String) : StoreV2 :=
  let m : Module :=
    { id := newId, title := form.title, description := form.description,
      content := form.content, quiz := form.quiz, assignedTo := assignedUsers,
      createdBy := creatorId, createdAt := now, updatedAt := now, isActive := true }
  let updatedModules := st.modules ++ [m]
  { st with modules := updatedModules,
            modulesStorage := some (Json.render (encodeModules updatedModules)) }

/-- part_000 `enrollInModule` (first definition, lines 171-188): skips when an
enrollment of this user for this module exists, otherwise appends and writes
'hr_enrollments_v2'. -/
def V2.enrollInModule (st : StoreV2) (userId moduleId now newId : String) : StoreV2 :=
  let existingEnrollments := st.enrollments.filter (fun e => e.userId == userId)
  if existingEnrollments.any (fun e => e.moduleId == moduleId) then st
  else
    let newEnrollment : Enrollment :=
      { id := newId, userId := userId, moduleId := moduleId, progress := 0,
        completed := false, score := none, startedAt := now, completedAt := none,
        answers := some [], updatedAt := none }
    let updatedEnrollments := st.enrollments ++ [newEnrollment]
    { st with enrollments := updatedEnrollments,
              enrollmentsStorage := some (Json.render (encodeEnrollments updatedEnrollments)) }

/-- part_000 `updateProgress` (first definition, lines 190-198): updates the
matching enrollment (adding an `updatedAt` stamp) and writes
'hr_enrollments_v2'. -/
def V2.updateProgress (st : StoreV2) (enrollmentId : String) (progress : Int)
    (now : String) : StoreV2 :=
  let updatedEnrollments := st.enrollments.map (fun e =>
    if e.id == enrollmentId then { e with progress := progress, updatedAt := some now } else e)
  { st with enrollments := updatedEnrollments,
            enrollmentsStorage := some (Json.render (encodeEnrollments updatedEnrollments)) }

/-- part_000 `completeEnrollment` (lines 200-215): marks the matching
enrollment complete with score and answers and writes 'hr_enrollments_v2'. -/
def V2.completeEnrollment (st : StoreV2) (enrollmentId : String) (score : Int)
    (answers : List Answer) (now : String) : StoreV2 :=
  let updatedEnrollments := st.enrollments.map (fun e =>
    if e.id == enrollmentId then
      { e with progress := 100, completed := true, completedAt := some now,
               score := some score, answers := some answers }
    else e)
  { st with enrollments := updatedEnrollments,
            enrollmentsStorage := some (Json.render (encodeEnrollments updatedEnrollments)) }

/-- part_000 `enrollInModule` (second definition, lines 551-562): appends
unconditionally (no duplicate check, no `answers` field) and performs no
local-storage write. -/
def V2b.enrollInModule (st : StoreV2) (userId moduleId now newId : String) : StoreV2 :=
  let newEnrollment : Enrollment :=
    { id := newId, userId := userId, moduleId := moduleId, progress := 0,
      completed := false, score := none, startedAt := now, completedAt := none,
      answers := none, updatedAt := none }
  { st with enrollments := st.enrollments ++ [newEnrollment] }

/-- part_000 `updateProgress` (second definition, lines 564-568): maps the
in-memory array only; no local-storage write and no `updatedAt` stamp. -/
def V2b.updateProgress (st : StoreV2) (enrollmentId : String) (progress : Int) : StoreV2 :=
  { st with enrollments := st.enrollments.map (fun e =>
      if e.id == enrollmentId then { e with progress := progress } else e) }

/-- The local-storage value under 'hr_enrollments_v2' is the JSON
serialization of the current in-memory enrollment array. -/
def enrollMirrorV2 (st : StoreV2) : Prop :=
  st.enrollmentsStorage = some (Json.render (encodeEnrollments st.enrollments))

/-- The local-storage value under 'hr_modules_v2' is the JSON serialization
of the current in-memory module array. -/
def modMirrorV2 (st : StoreV2) : Prop :=
  st.modulesStorage = some (Json.render (encodeModules st.modules))

/-- Quiz question of the part_001 variant (no `explanation` field). -/
structure QuizQuestionV1 where
  id : String
  question : String
  qtype : String
  options : Option (List String)
  correctAnswer : String
deriving DecidableEq

/-- Training module of the part_001 variant (no `updatedAt`/`isActive`). -/
structure ModuleV1 where
  id : String
  title : String
  description : String
  content : String
  quiz : List QuizQuestionV1
  assignedTo : List String
  createdBy : String
  createdAt : String
deriving DecidableEq

/-- Enrollment record of the part_001 variant (no `answers`). -/
structure EnrollmentV1 where
  id : String
  userId : String
  moduleId : String
  progress : Int
  completed : Bool
  score : Option Int
  startedAt : String
  completedAt : Option String
deriving DecidableEq

def encodeQuizQuestionV1 (q : QuizQuestionV1) : Json :=
  .obj ([("id", .str q.id), ("question", .str q.question), ("type", .str q.qtype)]
    ++ optField "options" (q.options.map (fun l => Json.arr (l.map Json.str)))
    ++ [("correctAnswer", .str q.correctAnswer)])

def encodeModuleV1 (m : ModuleV1) : Json :=
  .obj [("id", .str m.id), ("title", .str m.title), ("description", .str m.description),
        ("content", .str m.content), ("quiz", .arr (m.quiz.map encodeQuizQuestionV1)),
        ("assignedTo", .arr (m.assignedTo.map Json.str)), ("createdBy", .str m.createdBy),
        ("createdAt", .str m.createdAt)]

def encodeModulesV1 (ms : List ModuleV1) : Json :=
  .arr (ms.map encodeModuleV1)

def encodeEnrollmentV1 (e : EnrollmentV1) : Json :=
  .obj ([("id", .str e.id), ("userId", .str e.userId), ("moduleId", .str e.moduleId),
         ("progress", .num e.progress), ("completed", .bool e.completed)]
    ++ optField "score" (e.score.map Json.num)
    ++ [("startedAt", .str e.startedAt)]
    ++ optField "completedAt" (e.completedAt.map Json.str))

def encodeEnrollmentsV1 (es : List EnrollmentV1) : Json :=
  .arr (es.map encodeEnrollmentV1)

/-- The slice of part_001 application state the persistence claims are about,
with the local-storage keys 'hr_modules' and 'hr_enrollments'. -/
structure StoreV1 where
  modules : List ModuleV1
  enrollments : List EnrollmentV1
  modulesStorage : Option String
  enrollmentsStorage : Option String
deriving DecidableEq

/-- Input of the part_001 module-creation form. -/
structure ModuleFormV1 where
  title : String
  description : String
  content : String
  quiz : List QuizQuestionV1

/-- part_001 `createModule` followed by the persistence `useEffect` on
`[modules]` (lines 97-100), which rewrites the key 'hr_modules' with the
serialized array after every state commit. -/
def V1.createModule (st : StoreV1) (form : ModuleFormV1) (creatorId now newId : String) :
    StoreV1 :=
  let m : ModuleV1 :=
    { id := newId, title := form.title, description := form.description,
      content := form.content, quiz := form.quiz, assignedTo := [],
      createdBy := creatorId, createdAt := now }
  let updatedModules := st.modules ++ [m]
  { st with modules := updatedModules,
            modulesStorage := some (Json.render (encodeModulesV1 updatedModules)) }

/-- part_001 `enrollInModule` (lines 150-161, appends unconditionally)
followed by the persistence `useEffect` on `[enrollments]` (lines 102-104). -/
def V1.enrollInModule (st : StoreV1) (userId moduleId now newId : String) : StoreV1 :=
  let newEnrollment : EnrollmentV1 :=
    { id := newId, userId := userId, moduleId := moduleId, progress := 0,
      completed := false, score := none, startedAt := now, completedAt := none }
  let updatedEnrollments := st.enrollments ++ [newEnrollment]
  { st with enrollments := updatedEnrollments,
            enrollmentsStorage := some (Json.render (encodeEnrollmentsV1 updatedEnrollments)) }

/-- part_001 `updateProgress` followed by the persistence `useEffect` on
`[enrollments]`. -/
def V1.updateProgress (st : StoreV1) (enrollmentId : String) (progress : Int) : StoreV1 :=
  let updatedEnrollments := st.enrollments.map (fun e =>
    if e.id == enrollmentId then { e with progress := progress } else e)
  { st with enrollments := updatedEnrollments,
            enrollmentsStorage := some (Json.render (encodeEnrollmentsV1 updatedEnrollments)) }

/-- The local-storage value under 'hr_enrollments' is the JSON serialization
of the current part_001 enrollment array. -/
def enrollMirrorV1 (st : StoreV1) : Prop :=
  st.enrollmentsStorage = some (Json.render (encodeEnrollmentsV1 st.enrollments))

/-- The local-storage value under 'hr_modules' is the JSON serialization of
the current part_001 module array. -/
def modMirrorV1 (st : StoreV1) : Prop :=
  st.modulesStorage = some (Json.render (encodeModulesV1 st.modules))

/-- Agent id of the LearnAgent of the two unnamed variants. -/
def LEARN_AGENT_ID : String := "68e06493010a31eba989047d"

/-- Agent id of the EvalAgent of the two unnamed variants. -/
def EVAL_AGENT_ID : String := "68e064a097fff316128efaa2"

/-- LearnAgent id hard-coded in src/src/App.tsx. -/
def APP_LEARN_AGENT_ID : String := "68e0e0af615699d53b623bae"

/-- EvalAgent id hard-coded in src/src/App.tsx. -/
def APP_EVAL_AGENT_ID : String := "68e0e0bc615699d53e623bae"

/-- The four-field body of every agent-gateway POST (`user_id`, `agent_id`,
`session_id`, `message`). -/
structure AgentRequest where
  user_id : String
  agent_id : String
  session_id : String
  message : String
deriving DecidableEq

/-- `JSON.stringify` of an `AgentRequest`, key order as in the object
literals at every call site. -/
def AgentRequest.body (rq : AgentRequest) : String :=
  Json.render (.obj [("user_id", .str rq.user_id), ("agent_id", .str rq.agent_id),
                     ("session_id", .str rq.session_id), ("message", .str rq.message)])

/-- App.tsx per-call user id (line 81): built from `Date.now()` and a random
base-36 suffix. -/
def AppTsx.mkUserId (t : Nat) (r : String) : String :=
  "user-" ++ toString t ++ "-" ++ r

/-- App.tsx session id, generated once in the mount `useEffect` (line 75)
and stored in React state for the lifetime of the mounted component. -/
def AppTsx.mkSessionId (t : Nat) (r : String) : String :=
  "session-" ++ toString t ++ "-" ++ r

/-- The request App.tsx `callAgent` posts: a fresh user id per call, but the
mount-scoped `sessionId` state value, and the message verbatim. -/
def AppTsx.callAgent_request (sessionId : String) (t : Nat) (r : String)
    (agentId message : String) : AgentRequest :=
  { user_id := AppTsx.mkUserId t r, agent_id := agentId,
    session_id := sessionId, message := message }

/-- part_000 `callLearnAgent` user id (line 224). -/
def V2.mkUserId (t : Nat) (r : String) : String :=
  "user_" ++ toString t ++ "_" ++ r

/-- part_000 `callLearnAgent` session id (line 225): agent id and timestamp
only, no random suffix. -/
def V2.learnSessionId (t : Nat) : String :=
  "learn_" ++ LEARN_AGENT_ID ++ "_" ++ toString t

/-- part_000 `generateAssessment` user id (line 289). -/
def V2.mkHrUserId (t : Nat) (r : String) : String :=
  "hr_" ++ toString t ++ "_" ++ r

/-- part_000 `generateAssessment` / `evaluateAssessment` session id. -/
def V2.evalSessionId (t : Nat) : String :=
  "eval_" ++ EVAL_AGENT_ID ++ "_" ++ toString t

/-- part_000 `evaluateAssessment` user id (line 365). -/
def V2.mkStudentUserId (t : Nat) (r : String) : String :=
  "student_" ++ toString t ++ "_" ++ r

/-- part_001 user id (lines 171, 207): timestamp only, no random suffix. -/
def V1.mkUserId (t : Nat) : String :=
  "user" ++ toString t ++ "@test.com"

/-- part_001 `callLearnAgent` session id (line 172). -/
def V1.learnSessionId (t : Nat) : String :=
  "learn-" ++ LEARN_AGENT_ID ++ "-" ++ toString t

/-- part_001 `callEvalAgent` session id (line 208). -/
def V1.evalSessionId (t : Nat) : String :=
  "eval-" ++ EVAL_AGENT_ID ++ "-" ++ toString t

/-- part_000 `callLearnAgent` message envelope (`agentMessage`, lines
227-231), sent as `JSON.stringify(agentMessage)`. -/
def V2.callLearnAgent_envelope (moduleContent userQuery requestType : String) : String :=
  Json.render (.obj [("module_content", .str moduleContent),
                     ("user_query", .str userQuery),
                     ("request_type", .str requestType)])

/-- part_000 `callLearnAgent` POST request (lines 240-245). -/
def V2.callLearnAgent_request (t : Nat) (r : String)
    (moduleContent userQuery requestType : String) : AgentRequest :=
  { user_id := V2.mkUserId t r, agent_id := LEARN_AGENT_ID,
    session_id := V2.learnSessionId t,
    message := V2.callLearnAgent_envelope moduleContent userQuery requestType }

/-- part_000 `generateAssessment` message envelope (lines 292-296). -/
def V2.generateAssessment_envelope (moduleContent : String) : String :=
  Json.render (.obj [("module_content", .str moduleContent),
                     ("assessment_type", .str "quiz"),
                     ("history", .str "")])

/-- part_000 `generateAssessment` POST request (lines 305-310). -/
def V2.generateAssessment_request (t : Nat) (r : String) (moduleContent : String) :
    AgentRequest :=
  { user_id := V2.mkHrUserId t r, agent_id := EVAL_AGENT_ID,
    session_id := V2.evalSessionId t,
    message := V2.generateAssessment_envelope moduleContent }

/-- part_000 `evaluateAssessment` message envelope (lines 372-377);
`userResponse` is the '; '-joined answers string, `history` already
defaulted to "" by `history || ""`. -/
def V2.evaluateAssessment_envelope (moduleContent userResponse history : String) : String :=
  Json.render (.obj [("module_content", .str moduleContent),
                     ("assessment_type", .str "evaluation"),
                     ("user_response", .str userResponse),
                     ("history", .str history)])

/-- part_000 `evaluateAssessment` POST request (lines 386-391). -/
def V2.evaluateAssessment_request (t : Nat) (r : String)
    (moduleContent userResponse history : String) : AgentRequest :=
  { user_id := V2.mkStudentUserId t r, agent_id := EVAL_AGENT_ID,
    session_id := V2.evalSessionId t,
    message := V2.evaluateAssessment_envelope moduleContent userResponse history }

/-- part_001 `callLearnAgent` POST request (lines 181-186): plain-text
message built from the module content and the question. -/
def V1.callLearnAgent_request (t : Nat) (moduleContent message : String) : AgentRequest :=
  { user_id := V1.mkUserId t, agent_id := LEARN_AGENT_ID,
    session_id := V1.learnSessionId t,
    message := "Module content: " ++ moduleContent ++ "\n\nQuestion: " ++ message }

/-- part_001 `callEvalAgent` POST request (lines 217-222): plain-text
message. -/
def V1.callEvalAgent_request (t : Nat) (content : String) : AgentRequest :=
  { user_id := V1.mkUserId t, agent_id := EVAL_AGENT_ID,
    session_id := V1.evalSessionId t,
    message := "Generate assessment questions for this content: " ++ content }

/-- A body is a well-formed gateway body when it is the serialization of
exactly the four fields user_id, agent_id, session_id, message. -/
def isAgentBody (body : String) : Prop :=
  ∃ u a s m, body = Json.render (.obj [("user_id", .str u), ("agent_id", .str a),
                                       ("session_id", .str s), ("message", .str m)])

/-- Chat-transcript entry role. -/
inductive Role where
  | user
  | assistant
deriving DecidableEq

/-- Chat-transcript entry.  The optional fields model the extra properties
the part_000 `callLearnAgent` attaches to its entries. -/
structure ChatMsg where
  role : Role
  content : String
  timestamp : Option String := none
  requestType : Option String := none
  confidence : Option Int := none
  sourceSection : Option String := none
deriving DecidableEq

/-- Number of transcript entries with the given role. -/
def countRole (r : Role) (l : List ChatMsg) : Nat :=
  (l.filter (fun m => m.role == r)).length

/-- The `response` object of a parsed LearnAgent reply
(`content`, `confidence`, `source_reference.section`), each field possibly
missing. -/
structure LearnResp where
  content : Option String
  confidence : Option Int
  sourceSection : Option String
deriving DecidableEq

/-- Outcome of the single awaited network round trip of a LearnAgent call:
`ok p` when the fetch and body-decoding succeed, with `p` the `response`
object of the parsed reply if present; `err` when anything in the `try`
block throws (network failure, non-JSON body, null parse dereference). -/
inductive LearnOutcome where
  | ok (response : Option LearnResp)
  | err
deriving DecidableEq

/-- part_000 `callLearnAgent` transcript effect (lines 251-281): both the
success and the catch branch append one user entry and one assistant entry,
the assistant falling back to fixed placeholder text and defaults. -/
def V2.callLearnAgent_chat (userMessage requestType now : String)
    (o : LearnOutcome) (chat : List ChatMsg) : List ChatMsg :=
  match o with
  | .ok p =>
    chat ++
      [{ role := .user, content := userMessage, timestamp := some now,
         requestType := some requestType },
       { role := .assistant,
         content := jsOrString (p.bind LearnResp.content)
           "I understand your question but need more context from the module content to provide a specific answer.",
         timestamp := some now,
         confidence := some (jsOrInt (p.bind LearnResp.confidence) 0),
         sourceSection := some (jsOrString (p.bind LearnResp.sourceSection) "General") }]
  | .err =>
    chat ++
      [{ role := .user, content := userMessage, timestamp := some now,
         requestType := some requestType },
       { role := .assistant,
         content := "I'm having trouble processing your request right now. Please try again in a moment.",
         timestamp := some now, confidence := some 0, sourceSection := some "Error" }]

/-- part_001 `callLearnAgent` transcript effect (lines 192-200): appends one
user and one assistant entry on both the success and the catch path. -/
def V1.callLearnAgent_chat (message : String) (o : LearnOutcome)
    (chat : List ChatMsg) : List ChatMsg :=
  match o with
  | .ok p =>
    chat ++ [{ role := .user, content := message },
             { role := .assistant, content := jsOrString (p.bind LearnResp.content) "No response" }]
  | .err =>
    chat ++ [{ role := .user, content := message },
             { role := .assistant,
               content := "Sorry, I encountered an error processing your request." }]

/-- A knowledge gap entry of an EvalAgent evaluation. -/
structure Gap where
  topic : String
  recommendation : String
deriving DecidableEq

/-- The `assessment.evaluation` object of a parsed EvalAgent reply, each
field possibly missing. -/
structure Evaluation where
  score : Option Int
  feedback : Option String
  gaps_identified : Option (List Gap)
deriving DecidableEq

/-- Outcome of an `evaluateAssessment` call: `ok e` when the round trip
succeeds, with `e` the `assessment.evaluation` object of the parsed reply if
present; `err` when the `try` block throws. -/
inductive EvalOutcome where
  | ok (evaluation : Option Evaluation)
  | err
deriving DecidableEq

/-- The grade object part_000 stores with `setGradeResults`. -/
structure GradeResults where
  score : Int
  total : Int
  feedback : String
  gaps : List Gap
deriving DecidableEq

/-- part_000 `evaluateAssessment` grade-storing effect (lines 397-438):
fields from `assessment.evaluation` with JS `||` defaults when it is
present, a fixed 75-point default object when it is missing, and a fixed
60-point default object in the catch branch. -/
def V2.evaluateAssessment_grade : EvalOutcome → GradeResults
  | .ok (some evaluation) =>
    { score := jsOrInt evaluation.score 0, total := 100,
      feedback := jsOrString evaluation.feedback "Thank you for completing the assessment.",
      gaps := evaluation.gaps_identified.getD [] }
  | .ok none =>
    { score := 75, total := 100,
      feedback := "Good effort on the assessment. Here are some areas for improvement:",
      gaps := [{ topic := "Content comprehension",
                 recommendation := "Review the module content more thoroughly" },
               { topic := "Application of concepts",
                 recommendation := "Practice applying learned concepts to new scenarios" }] }
  | .err =>
    { score := 60, total := 100,
      feedback := "Assessment evaluation encountered an error. Based on your responses, focus on reviewing the core module concepts.",
      gaps := [{ topic := "System processing",
                 recommendation := "Please retry the assessment or contact support" }] }

/-- A raw generated question of a parsed EvalAgent generation reply. -/
structure GenQuestion where
  question : Option String
  expected_answer : Option String
deriving DecidableEq

/-- Outcome of a `generateAssessment` call: `ok qs` when the round trip
succeeds, with `qs` the `assessment.questions` array of the parsed reply if
present (possibly empty — an empty array is truthy in JS); `err` when the
`try` block throws. -/
inductive GenOutcome where
  | ok (questions : Option (List GenQuestion))
  | err
deriving DecidableEq

/-- part_000 `generateAssessment` (lines 287-361): the stored `currentQuiz`
paired with the returned question list, on each of the three paths (mapped
reply questions, missing-questions fallback, catch-branch fallback). -/
def V2.generateAssessment_run (t : Nat) (o : GenOutcome) :
    Option (List QuizQuestion) × List QuizQuestion :=
  match o with
  | .ok (some qs) =>
    let generatedQuestions := qs.enum.map (fun p =>
      { id := "gen_" ++ toString p.1 ++ "_" ++ toString t,
        question := jsOrString p.2.question "Generated question",
        qtype := "true-false", options := none,
        correctAnswer := jsOrString p.2.expected_answer "True",
        explanation := some "AI-generated question based on course content" : QuizQuestion })
    (some generatedQuestions, generatedQuestions)
  | .ok none =>
    let fallbackQuestions : List QuizQuestion :=
      [{ id := "default_1",
         question := "What are the key concepts from this learning module?",
         qtype := "short-answer", options := none,
         correctAnswer := "Analysis of primary concepts based on the provided content",
         explanation := some "Assess understanding of main course concepts" }]
    (some fallbackQuestions, fallbackQuestions)
  | .err =>
    let fallbackQuestions : List QuizQuestion :=
      [{ id := "error_1",
         question := "Summarize the main points from this learning module.",
         qtype := "short-answer", options := none,
         correctAnswer := "Key concepts and insights from the provided learning content",
         explanation := some "Basic comprehension assessment" }]
    (some fallbackQuestions, fallbackQuestions)

/-- The `assessment` object of a parsed part_001 EvalAgent reply. -/
structure AssessmentV1 where
  questions : Option (List GenQuestion)
  evaluation : Option Evaluation
deriving DecidableEq

/-- Outcome of a part_001 `callEvalAgent` call. -/
inductive V1EvalOutcome where
  | ok (assessment : Option AssessmentV1)
  | err
deriving DecidableEq

/-- part_001 `callEvalAgent` transcript effect (lines 228-234): appends a
single assistant entry (and no user entry) on both paths; `score || 'N/A'`
renders 'N/A' for a missing or zero score. -/
def V1.callEvalAgent_chat (o : V1EvalOutcome) (chat : List ChatMsg) : List ChatMsg :=
  match o with
  | .ok a =>
    let qlen : Nat := ((a.bind AssessmentV1.questions).map List.length).getD 0
    let scoreText : String :=
      match (a.bind AssessmentV1.evaluation).bind Evaluation.score with
      | some n => if n = 0 then "N/A" else toString n
      | none => "N/A"
    chat ++ [{ role := .assistant,
               content := "Generated " ++ toString qlen ++ " questions. Score: " ++ scoreText }]
  | .err =>
    chat ++ [{ role := .assistant,
               content := "Sorry, I encountered an error generating the assessment." }]

/-- The `result` object of a parsed App.tsx agent reply (`AgentResponse`
interface, lines 45-56). -/
structure AppResult where
  response : Option String
  key_points : Option (List String) := none
  suggested_followup : Option (List String) := none
  score : Option Int := none
  question_feedback : Option (List String) := none
  summary : Option String := none
deriving DecidableEq

/-- A parsed App.tsx agent reply. -/
structure AppParsed where
  result : AppResult
deriving DecidableEq

/-- Outcome of an App.tsx `callAgent` round trip: on success the parsed
value (possibly null), on a thrown error `err`. -/
inductive AppOutcome where
  | ok (parsed : Option AppParsed)
  | err
deriving DecidableEq

/-- App.tsx `callAgent` (lines 79-103): returns the parsed reply, or `null`
when the `try` block throws — no fallback value is substituted here. -/
def AppTsx.callAgent_result : AppOutcome → Option AppParsed
  | .ok p => p
  | .err => none

/-- App.tsx `handleLearningQuestion` transcript effect (lines 106-126): the
user entry is appended before the call; the assistant entry is appended only
when `callAgent` returned a non-null reply, so nothing is appended on
failure. -/
def AppTsx.handleLearningQuestion_chat (question : String) (o : AppOutcome)
    (chat : List ChatMsg) : List ChatMsg :=
  let c1 := chat ++ [{ role := .user, content := question }]
  match AppTsx.callAgent_result o with
  | some p =>
    c1 ++ [{ role := .assistant,
             content := jsOrString p.result.response
               "I could not process your question at the moment." }]
  | none => c1

/-- One entry of the part_000 `popularModules` analytics list. -/
structure PopModule where
  moduleId : String
  title : String
  enrollments : Nat
deriving DecidableEq

/-- The part_000 `HRAnalytics` record; the rate and score are the
`Math.round`ed values the code stores. -/
structure HRAnalytics where
  totalModules : Nat
  totalEnrollments : Nat
  completionRate : Int
  averageScore : Int
  popularModules : List PopModule
deriving DecidableEq

/-- JavaScript `Math.round`: half-up (towards positive infinity). -/
def jsRound (q : ℚ) : Int :=
  Int.floor (q + 1 / 2)

/-- Stable insertion of one entry into a list sorted by descending
enrollment count (models the `(a, b) => b.enrollments - a.enrollments`
comparator). -/
def insertDesc (x : PopModule) : List PopModule → List PopModule
  | [] => [x]
  | y :: ys => if x.enrollments > y.enrollments then x :: y :: ys else y :: insertDesc x ys

/-- Stable sort by descending enrollment count. -/
def sortDescByEnrollments : List PopModule → List PopModule
  | [] => []
  | x :: xs => insertDesc x (sortDescByEnrollments xs)

/-- part_000 `calculateAnalytics` (lines 525-543).  The JS expression
`completedEnrollments.reduce(...) / completedEnrollments.length || 0`
produces NaN when no enrollment is completed, which `|| 0` converts to 0;
that (and the `|| 0` identity on an actual zero average) is modelled by the
zero branch of `averageScore`. -/
def V2.calculateAnalytics (modules : List Module) (enrollments : List Enrollment) :
    HRAnalytics :=
  let completedEnrollments := enrollments.filter (fun e => e.completed)
  let completionRate : ℚ :=
    if enrollments.length > 0 then
      ((completedEnrollments.length : ℚ) / (enrollments.length : ℚ)) * 100
    else 0
  let averageScore : ℚ :=
    if completedEnrollments.length = 0 then 0
    else (completedEnrollments.foldl (fun sum e => sum + ((e.score.getD 0 : Int) : ℚ)) 0) /
      (completedEnrollments.length : ℚ)
  let moduleEnrollments := modules.map (fun m =>
    { moduleId := m.id, title := m.title,
      enrollments := (enrollments.filter (fun e => e.moduleId == m.id)).length : PopModule })
  { totalModules := modules.length,
    totalEnrollments := enrollments.length,
    completionRate := jsRound completionRate,
    averageScore := jsRound averageScore,
    popularModules := (sortDescByEnrollments moduleEnrollments).take 5 }

/-- A part_000 state with empty arrays whose storage keys already hold the
serialization of those arrays. -/
def exampleStoreV2 : StoreV2 :=
  { modules := [], enrollments := [],
    modulesStorage := some (Json.render (encodeModules [])),
    enrollmentsStorage := some (Json.render (encodeEnrollments [])) }

/-- A part_001 state with empty arrays whose storage keys already hold the
serialization of those arrays. -/
def exampleStoreV1 : StoreV1 :=
  { modules := [], enrollments := [],
    modulesStorage := some (Json.render (encodeModulesV1 [])),
    enrollmentsStorage := some (Json.render (encodeEnrollmentsV1 [])) }

/-- A fresh part_000 enrollment of user u1 in module m1. -/
def mirrorEnrollment : Enrollment :=
  { id := "e1", userId := "u1", moduleId := "m1", progress := 0, completed := false,
    score := none, startedAt := "t0", completedAt := none, answers := some [],
    updatedAt := none }

/-- A part_000 state holding `mirrorEnrollment` whose 'hr_enrollments_v2'
key holds exactly its serialization. -/
def mirroredStoreV2 : StoreV2 :=
  { modules := [], enrollments := [mirrorEnrollment], modulesStorage := none,
    enrollmentsStorage := some (Json.render (encodeEnrollments [mirrorEnrollment])) }

/-- A part_001 enrollment of user u1 in module m1. -/
def dupEnrollmentV1 : EnrollmentV1 :=
  { id := "e1", userId := "u1", moduleId := "m1", progress := 0, completed := false,
    score := none, startedAt := "t0", completedAt := none }

/-- A part_001 state in which user u1 is already enrolled in module m1. -/
def dupStoreV1 : StoreV1 :=
  { modules := [], enrollments := [dupEnrollmentV1], modulesStorage := none,
    enrollmentsStorage := none }

/-- An evaluation reply whose feedback field is present but empty. -/
def emptyFeedbackEvaluation : Evaluation :=
  { score := some 80, feedback := some "", gaps_identified := some [] }

/-- An evaluation reply with all three fields present and truthy. -/
def exampleEvaluation : Evaluation :=
  { score := some 85, feedback := some "Nice work",
    gaps_identified := some [{ topic := "T", recommendation := "R" }] }

theorem countRole_append (r : Role) (l1 l2 : List ChatMsg) :
    countRole r (l1 ++ l2) = countRole r l1 + countRole r l2 := by
  simp [countRole, List.filter_append]

theorem jsRound_zero : jsRound 0 = 0 := by
  rw [jsRound, Int.floor_eq_zero_iff]
  constructor <;> norm_num

/-- C1 (counterexample): the part_001 assessment-generation gateway call
`callEvalAgent` appends zero entries with role user and exactly one entry
with role assistant, refuting the claim that every agent-gateway call
appends exactly one user and one assistant entry. -/
theorem callEvalAgent_appends_no_user_entry :
    countRole .user (V1.callEvalAgent_chat .err []) = 0 ∧
    countRole .assistant (V1.callEvalAgent_chat .err []) = 1 :=
  ⟨rfl, rfl⟩

/-- C1 (amended): the learning-question gateways `callLearnAgent` of both
unnamed variants append exactly one user and one assistant entry to the
transcript per call on every execution path, including the catch branch;
the assessment-generation and grading calls do not follow this pattern. -/
theorem callLearnAgent_one_user_one_assistant
    (userMessage requestType now message : String) (o o2 : LearnOutcome)
    (chat chat2 : List ChatMsg) :
    (countRole .user (V2.callLearnAgent_chat userMessage requestType now o chat) =
        countRole .user chat + 1 ∧
      countRole .assistant (V2.callLearnAgent_chat userMessage requestType now o chat) =
        countRole .assistant chat + 1) ∧
    (countRole .user (V1.callLearnAgent_chat message o2 chat2) =
        countRole .user chat2 + 1 ∧
      countRole .assistant (V1.callLearnAgent_chat message o2 chat2) =
        countRole .assistant chat2 + 1) := by
  constructor
  · cases o <;> simp [V2.callLearnAgent_chat, countRole, List.filter_append]
  · cases o2 <;> simp [V1.callLearnAgent_chat, countRole, List.filter_append]

/-- C2 (counterexample): the second `updateProgress` definition of part_000
performs no local-storage write, so starting from a state whose
'hr_enrollments_v2' value mirrors the array, one progress update leaves the
stored value stale. -/
theorem updateProgress_second_def_breaks_mirror :
    enrollMirrorV2 mirroredStoreV2 ∧
    ¬ enrollMirrorV2 (V2b.updateProgress mirroredStoreV2 "e1" 50) := by
  refine ⟨rfl, ?_⟩
  simp only [enrollMirrorV2]
  decide

/-- C2 (amended): the explicitly persisting part_000 mutators
(`createModule`, the first `enrollInModule`, the first `updateProgress`,
`completeEnrollment`) and the part_001 mutators (whose persistence
`useEffect` rewrites the key after every commit) leave the corresponding
local-storage key holding the JSON serialization of exactly the current
in-memory array; the second part_000 definitions do not. -/
theorem mutators_maintain_storage_mirror
    (st : StoreV2) (st1 : StoreV1) (form : ModuleForm) (form1 : ModuleFormV1)
    (assignedUsers : List String)
    (creatorId now newId userId moduleId enrollmentId : String)
    (progress score : Int) (answers : List Answer) :
    modMirrorV2 (V2.createModule st form assignedUsers creatorId now newId) ∧
    (enrollMirrorV2 st → enrollMirrorV2 (V2.enrollInModule st userId moduleId now newId)) ∧
    enrollMirrorV2 (V2.updateProgress st enrollmentId progress now) ∧
    enrollMirrorV2 (V2.completeEnrollment st enrollmentId score answers now) ∧
    modMirrorV1 (V1.createModule st1 form1 creatorId now newId) ∧
    enrollMirrorV1 (V1.enrollInModule st1 userId moduleId now newId) ∧
    enrollMirrorV1 (V1.updateProgress st1 enrollmentId progress) := by
  refine ⟨rfl, ?_, rfl, rfl, rfl, rfl, rfl⟩
  intro h
  simp only [V2.enrollInModule]
  split
  · exact h
  · rfl

/-- C2 (witness): the amended mirror theorem applied at concrete states,
discharging the pre-existing-mirror hypothesis of the enrollment branch. -/
theorem mutators_maintain_storage_mirror_witness :
    modMirrorV2 (V2.createModule exampleStoreV2 ⟨"T", "D", "C", []⟩ [] "u0" "t0" "x1") ∧
    enrollMirrorV2 (V2.enrollInModule exampleStoreV2 "u1" "m1" "t0" "x1") ∧
    enrollMirrorV1 (V1.updateProgress exampleStoreV1 "e9" 50) :=
  have h := mutators_maintain_storage_mirror exampleStoreV2 exampleStoreV1
    ⟨"T", "D", "C", []⟩ ⟨"T", "D", "C", []⟩ [] "u0" "t0" "x1" "u1" "m1" "e9" 50 80 []
  ⟨h.1, h.2.1 rfl, h.2.2.2.2.2.2⟩

/-- C3 (counterexample): on a thrown network request, App.tsx's
`handleLearningQuestion` appends no fallback message at all — `callAgent`
returns null and the reply is silently dropped, refuting the claim that
every Q&A call produces a hard-coded placeholder in the transcript. -/
theorem handleLearningQuestion_error_no_fallback :
    AppTsx.handleLearningQuestion_chat "What is covered here?" .err [] =
      [{ role := .user, content := "What is covered here?" }] ∧
    countRole .assistant (AppTsx.handleLearningQuestion_chat "What is covered here?" .err []) = 0 :=
  ⟨rfl, rfl⟩

/-- C3 (amended): in the unnamed variants every failure mode — a thrown
request (network error or non-JSON body, the `.err` outcome) as well as a
successful round trip whose parsed reply lacks the expected field (the
`.ok none` outcomes) — produces its hard-coded fallback, and no retry is
attempted (each call consumes exactly one network outcome): the Q&A
gateways `callLearnAgent` append fixed placeholder transcript messages, the
grading gateway `evaluateAssessment` stores a default score/feedback object
(75-point on a reply without `assessment.evaluation`, 60-point on a throw),
and the generation gateways fall back to a hard-coded question list
(part_000 `generateAssessment`, which never appends to the transcript) or a
zero-defaults summary / fixed error message (part_001 `callEvalAgent`).
App.tsx produces its placeholder only for a missing field on a successful
round trip; on a throw `callAgent` returns null and the caller appends
nothing. -/
theorem error_paths_fixed_fallbacks (userMessage requestType now message question : String)
    (t : Nat) (chat chatB chatC chatD : List ChatMsg) :
    V2.callLearnAgent_chat userMessage requestType now .err chat =
      chat ++
        [{ role := .user, content := userMessage, timestamp := some now,
           requestType := some requestType },
         { role := .assistant,
           content := "I'm having trouble processing your request right now. Please try again in a moment.",
           timestamp := some now, confidence := some 0, sourceSection := some "Error" }] ∧
    V2.callLearnAgent_chat userMessage requestType now (.ok none) chat =
      chat ++
        [{ role := .user, content := userMessage, timestamp := some now,
           requestType := some requestType },
         { role := .assistant,
           content := "I understand your question but need more context from the module content to provide a specific answer.",
           timestamp := some now, confidence := some 0, sourceSection := some "General" }] ∧
    V2.evaluateAssessment_grade .err =
      { score := 60, total := 100,
        feedback := "Assessment evaluation encountered an error. Based on your responses, focus on reviewing the core module concepts.",
        gaps := [{ topic := "System processing",
                   recommendation := "Please retry the assessment or contact support" }] } ∧
    V2.evaluateAssessment_grade (.ok none) =
      { score := 75, total := 100,
        feedback := "Good effort on the assessment. Here are some areas for improvement:",
        gaps := [{ topic := "Content comprehension",
                   recommendation := "Review the module content more thoroughly" },
                 { topic := "Application of concepts",
                   recommendation := "Practice applying learned concepts to new scenarios" }] } ∧
    V2.generateAssessment_run t .err =
      (some [{ id := "error_1",
               question := "Summarize the main points from this learning module.",
               qtype := "short-answer", options := none,
               correctAnswer := "Key concepts and insights from the provided learning content",
               explanation := some "Basic comprehension assessment" }],
       [{ id := "error_1",
          question := "Summarize the main points from this learning module.",
          qtype := "short-answer", options := none,
          correctAnswer := "Key concepts and insights from the provided learning content",
          explanation := some "Basic comprehension assessment" }]) ∧
    V2.generateAssessment_run t (.ok none) =
      (some [{ id := "default_1",
               question := "What are the key concepts from this learning module?",
               qtype := "short-answer", options := none,
               correctAnswer := "Analysis of primary concepts based on the provided content",
               explanation := some "Assess understanding of main course concepts" }],
       [{ id := "default_1",
          question := "What are the key concepts from this learning module?",
          qtype := "short-answer", options := none,
          correctAnswer := "Analysis of primary concepts based on the provided content",
          explanation := some "Assess understanding of main course concepts" }]) ∧
    V1.callLearnAgent_chat message .err chatB =
      chatB ++ [{ role := .user, content := message },
                { role := .assistant,
                  content := "Sorry, I encountered an error processing your request." }] ∧
    V1.callLearnAgent_chat message (.ok none) chatB =
      chatB ++ [{ role := .user, content := message },
                { role := .assistant, content := "No response" }] ∧
    V1.callEvalAgent_chat .err chatC =
      chatC ++ [{ role := .assistant,
                  content := "Sorry, I encountered an error generating the assessment." }] ∧
    V1.callEvalAgent_chat (.ok none) chatC =
      chatC ++ [{ role := .assistant,
                  content := "Generated 0 questions. Score: N/A" }] ∧
    AppTsx.handleLearningQuestion_chat question .err chatD =
      chatD ++ [{ role := .user, content := question }] ∧
    AppTsx.handleLearningQuestion_chat question (.ok (some { result := { response := none } })) chatD =
      chatD ++ [{ role := .user, content := question },
                { role := .assistant,
                  content := "I could not process your question at the moment." }] := by
  refine ⟨rfl, rfl, rfl, rfl, rfl, rfl, rfl, rfl, rfl, ?_, rfl, ?_⟩
  · simp only [V1.callEvalAgent_chat]
    congr 1
  · simp [AppTsx.handleLearningQuestion_chat, AppTsx.callAgent_result, jsOrString]

/-- C4: the JSON-extraction helper returns the parsed object for well-formed
JSON input, returns the parse of the first brace-delimited block when the
whole input does not parse but such a block does, and returns the safe
default `none` (it cannot throw) when neither parses or no block exists. -/
theorem parseLLMJson_spec (s : String) :
    (∀ j, parseJson s = some j → parseLLMJson s = some j) ∧
    (parseJson s = none → ∀ t j, extractBraced s = some t → parseJson t = some j →
      parseLLMJson s = some j) ∧
    (parseJson s = none → extractBraced s = none → parseLLMJson s = none) ∧
    (parseJson s = none → ∀ t, extractBraced s = some t → parseJson t = none →
      parseLLMJson s = none) := by
  refine ⟨?_, ?_, ?_, ?_⟩ <;> intros <;> simp_all [parseLLMJson]

/-- C4 (witness): the extraction helper evaluated on a well-formed JSON
object, on JSON surrounded by prose, and on unparsable text. -/
theorem parseLLMJson_spec_witness :
    parseLLMJson "\x7b\"a\":1\x7d" = some (.obj [("a", .num 1)]) ∧
    parseLLMJson "reply: \x7b\"a\":1\x7d done" = some (.obj [("a", .num 1)]) ∧
    parseLLMJson "no json here" = none :=
  ⟨(parseLLMJson_spec "\x7b\"a\":1\x7d").1 _ rfl,
   (parseLLMJson_spec "reply: \x7b\"a\":1\x7d done").2.1 rfl "\x7b\"a\":1\x7d" _ rfl rfl,
   (parseLLMJson_spec "no json here").2.2.1 rfl rfl⟩

/-- C5 (counterexample): two distinct App.tsx calls (their per-call user ids
differ) posted under the same mounted component share one session id — the
session id is generated once on mount, not per call. -/
theorem app_session_id_shared_across_calls :
    (AppTsx.callAgent_request (AppTsx.mkSessionId 100 "abc") 101 "r1"
        APP_LEARN_AGENT_ID "q1").session_id =
      (AppTsx.callAgent_request (AppTsx.mkSessionId 100 "abc") 102 "r2"
        APP_LEARN_AGENT_ID "q2").session_id ∧
    (AppTsx.callAgent_request (AppTsx.mkSessionId 100 "abc") 101 "r1"
        APP_LEARN_AGENT_ID "q1").user_id ≠
      (AppTsx.callAgent_request (AppTsx.mkSessionId 100 "abc") 102 "r2"
        APP_LEARN_AGENT_ID "q2").user_id :=
  ⟨rfl, by decide⟩

/-- C5 (amended): App.tsx builds a fresh user id per call from the timestamp
and random suffix but reuses the mount-scoped session id for every call; the
unnamed variants derive their session ids from the agent id and the
timestamp only (no random suffix), and part_001's user id carries no random
suffix either. -/
theorem gateway_ids_characterization :
    (∀ sessionId t r agentId message,
      (AppTsx.callAgent_request sessionId t r agentId message).user_id =
        "user-" ++ toString t ++ "-" ++ r ∧
      (AppTsx.callAgent_request sessionId t r agentId message).session_id = sessionId) ∧
    (∀ t r, V2.mkUserId t r = "user_" ++ toString t ++ "_" ++ r) ∧
    (∀ t, V2.learnSessionId t = "learn_" ++ LEARN_AGENT_ID ++ "_" ++ toString t) ∧
    (∀ t, V1.mkUserId t = "user" ++ toString t ++ "@test.com") ∧
    (∀ t, V1.learnSessionId t = "learn-" ++ LEARN_AGENT_ID ++ "-" ++ toString t) ∧
    AppTsx.mkUserId 101 "r1" ≠ AppTsx.mkUserId 102 "r2" :=
  ⟨fun _ _ _ _ _ => ⟨rfl, rfl⟩, fun _ _ => rfl, fun _ => rfl, fun _ => rfl, fun _ => rfl,
   by decide⟩

/-- C6 (counterexample): when the parsed evaluation carries a present but
empty feedback string, `evaluation.feedback || default` stores the default
thank-you string instead of the (empty) `evaluation.feedback`, refuting the
claim that the stored feedback equals `evaluation.feedback` whenever it is
present. -/
theorem grade_feedback_empty_string_replaced :
    emptyFeedbackEvaluation.feedback = some "" ∧
    (V2.evaluateAssessment_grade (.ok (some emptyFeedbackEvaluation))).feedback =
      "Thank you for completing the assessment." ∧
    (V2.evaluateAssessment_grade (.ok (some emptyFeedbackEvaluation))).feedback ≠ "" :=
  ⟨rfl, rfl, by decide⟩

/-- C6 (amended): when the parsed reply contains an evaluation object, the
stored grade has total 100, score equal to evaluation.score (0 when
absent), feedback equal to evaluation.feedback when that is a non-empty
string (the default thank-you string when absent or empty), and gaps equal
to evaluation.gaps_identified (empty when absent). -/
theorem evaluateAssessment_grade_fields (evaluation : Evaluation) :
    (V2.evaluateAssessment_grade (.ok (some evaluation))).total = 100 ∧
    (∀ n, evaluation.score = some n →
      (V2.evaluateAssessment_grade (.ok (some evaluation))).score = n) ∧
    (evaluation.score = none →
      (V2.evaluateAssessment_grade (.ok (some evaluation))).score = 0) ∧
    (∀ f, evaluation.feedback = some f → f ≠ "" →
      (V2.evaluateAssessment_grade (.ok (some evaluation))).feedback = f) ∧
    ((evaluation.feedback = none ∨ evaluation.feedback = some "") →
      (V2.evaluateAssessment_grade (.ok (some evaluation))).feedback =
        "Thank you for completing the assessment.") ∧
    (∀ gs, evaluation.gaps_identified = some gs →
      (V2.evaluateAssessment_grade (.ok (some evaluation))).gaps = gs) ∧
    (evaluation.gaps_identified = none →
      (V2.evaluateAssessment_grade (.ok (some evaluation))).gaps = []) := by
  obtain ⟨sc, fb, gaps⟩ := evaluation
  refine ⟨rfl, ?_, ?_, ?_, ?_, ?_, ?_⟩
  · rintro n rfl
    by_cases hn : n = 0 <;>
      simp [V2.evaluateAssessment_grade, jsOrInt, hn]
  · rintro rfl
    simp [V2.evaluateAssessment_grade, jsOrInt]
  · rintro f rfl hf
    simp [V2.evaluateAssessment_grade, jsOrString, hf]
  · rintro (rfl | rfl) <;> simp [V2.evaluateAssessment_grade, jsOrString]
  · rintro gs rfl
    simp [V2.evaluateAssessment_grade]
  · rintro rfl
    simp [V2.evaluateAssessment_grade]

/-- C6 (witness): the amended grade theorem applied to a concrete
evaluation object with all fields present and truthy. -/
theorem evaluateAssessment_grade_fields_witness :
    (V2.evaluateAssessment_grade (.ok (some exampleEvaluation))).score = 85 ∧
    (V2.evaluateAssessment_grade (.ok (some exampleEvaluation))).feedback = "Nice work" ∧
    (V2.evaluateAssessment_grade (.ok (some exampleEvaluation))).gaps =
      [{ topic := "T", recommendation := "R" }] :=
  ⟨(evaluateAssessment_grade_fields exampleEvaluation).2.1 85 rfl,
   (evaluateAssessment_grade_fields exampleEvaluation).2.2.2.1 "Nice work" rfl (by decide),
   (evaluateAssessment_grade_fields exampleEvaluation).2.2.2.2.2.1 _ rfl⟩

/-- C7: every gateway POST body serializes exactly the four fields user_id,
agent_id, session_id and message, with the message a JSON-stringified
envelope at the part_000 call sites and plain text at the App.tsx and
part_001 call sites. -/
theorem post_bodies_four_fields (sessionId : String) (t : Nat)
    (r agentId message moduleContent userQuery requestType userResponse history content :
      String) :
    (AgentRequest.body (AppTsx.callAgent_request sessionId t r agentId message) =
        Json.render (.obj [("user_id", .str (AppTsx.mkUserId t r)),
                           ("agent_id", .str agentId), ("session_id", .str sessionId),
                           ("message", .str message)]) ∧
      isAgentBody (AgentRequest.body (AppTsx.callAgent_request sessionId t r agentId message))) ∧
    ((V2.callLearnAgent_request t r moduleContent userQuery requestType).message =
        V2.callLearnAgent_envelope moduleContent userQuery requestType ∧
      isAgentBody (AgentRequest.body (V2.callLearnAgent_request t r moduleContent userQuery requestType))) ∧
    ((V2.generateAssessment_request t r moduleContent).message =
        V2.generateAssessment_envelope moduleContent ∧
      isAgentBody (AgentRequest.body (V2.generateAssessment_request t r moduleContent))) ∧
    ((V2.evaluateAssessment_request t r moduleContent userResponse history).message =
        V2.evaluateAssessment_envelope moduleContent userResponse history ∧
      isAgentBody (AgentRequest.body (V2.evaluateAssessment_request t r moduleContent userResponse history))) ∧
    ((V1.callLearnAgent_request t moduleContent message).message =
        "Module content: " ++ moduleContent ++ "\n\nQuestion: " ++ message ∧
      isAgentBody (AgentRequest.body (V1.callLearnAgent_request t moduleContent message))) ∧
    ((V1.callEvalAgent_request t content).message =
        "Generate assessment questions for this content: " ++ content ∧
      isAgentBody (AgentRequest.body (V1.callEvalAgent_request t content))) :=
  ⟨⟨rfl, _, _, _, _, rfl⟩, ⟨rfl, _, _, _, _, rfl⟩, ⟨rfl, _, _, _, _, rfl⟩,
   ⟨rfl, _, _, _, _, rfl⟩, ⟨rfl, _, _, _, _, rfl⟩, ⟨rfl, _, _, _, _, rfl⟩⟩

/-- C8 (counterexample): part_001's `enrollInModule` has no duplicate check:
called for a user-module pair that already has an enrollment it changes the
array, leaving two enrollment records for the same pair. -/
theorem enrollInModule_p001_creates_duplicate :
    (V1.enrollInModule dupStoreV1 "u1" "m1" "t1" "e2").enrollments ≠
      dupStoreV1.enrollments ∧
    ((V1.enrollInModule dupStoreV1 "u1" "m1" "t1" "e2").enrollments.filter
      (fun e => e.userId == "u1" && e.moduleId == "m1")).length = 2 :=
  ⟨by decide, by decide⟩

/-- C8 (amended): the first part_000 `enrollInModule` definition is
idempotent per user-module pair — when an enrollment of that user for that
module exists the state is returned unchanged; the part_001 definition (and
the second part_000 definition) append unconditionally. -/
theorem enrollInModule_first_def_idempotent (st : StoreV2)
    (userId moduleId now newId : String)
    (h : ∃ e ∈ st.enrollments, e.userId = userId ∧ e.moduleId = moduleId) :
    V2.enrollInModule st userId moduleId now newId = st := by
  obtain ⟨e, he, h1, h2⟩ := h
  have hc : (st.enrollments.filter (fun x => x.userId == userId)).any
      (fun x => x.moduleId == moduleId) = true := by
    rw [List.any_eq_true]
    exact ⟨e, List.mem_filter.mpr ⟨he, by simp [h1]⟩, by simp [h2]⟩
  simp [V2.enrollInModule, hc]

/-- C8 (witness): re-enrolling user u1 in module m1 in a state already
holding such an enrollment returns the state unchanged. -/
theorem enrollInModule_first_def_idempotent_witness :
    V2.enrollInModule mirroredStoreV2 "u1" "m1" "t9" "e9" = mirroredStoreV2 :=
  enrollInModule_first_def_idempotent mirroredStoreV2 "u1" "m1" "t9" "e9"
    ⟨mirrorEnrollment, by simp [mirroredStoreV2], rfl, rfl⟩

/-- C9: `calculateAnalytics` is total and observes no division by zero: with
an empty enrollment list the completion rate is 0 (and the average score is
0 too), and with no completed enrollment the average score is 0 — the JS
NaN from 0/0 is absorbed by the trailing `|| 0`. -/
theorem calculateAnalytics_total_safe (modules : List Module)
    (enrollments : List Enrollment) :
    (enrollments = [] →
      (V2.calculateAnalytics modules enrollments).completionRate = 0 ∧
      (V2.calculateAnalytics modules enrollments).averageScore = 0 ∧
      (V2.calculateAnalytics modules enrollments).totalEnrollments = 0) ∧
    (enrollments.filter (fun e => e.completed) = [] →
      (V2.calculateAnalytics modules enrollments).averageScore = 0) := by
  constructor
  · rintro rfl
    refine ⟨?_, ?_, rfl⟩ <;> simp [V2.calculateAnalytics, jsRound_zero]
  · intro h
    simp [V2.calculateAnalytics, h, jsRound_zero]

/-- C9 (witness): the analytics safety theorem applied at the empty state. -/
theorem calculateAnalytics_total_safe_witness :
    (V2.calculateAnalytics [] []).completionRate = 0 ∧
    (V2.calculateAnalytics [] []).averageScore = 0 :=
  ⟨((calculateAnalytics_total_safe [] []).1 rfl).1,
   (calculateAnalytics_total_safe [] []).2 rfl⟩

/-- C10 (counterexample): when the parsed reply carries an empty
`assessment.questions` array (truthy in JS), `generateAssessment` stores an
empty quiz — non-null but with zero questions, refuting the claim that the
current quiz always contains at least one question. -/
theorem generateAssessment_empty_questions_list :
    (V2.generateAssessment_run 0 (.ok (some []))).1 = some [] ∧
    ((V2.generateAssessment_run 0 (.ok (some []))).2).length = 0 :=
  ⟨rfl, rfl⟩

/-- C10 (amended): on every execution path `generateAssessment` stores a
non-null current quiz equal to the returned question list; that list has
exactly one question on the missing-questions and error paths, and the
length of the reply's questions array otherwise (hence it is empty exactly
when the reply carries an empty questions array). -/
theorem generateAssessment_establishes_quiz (t : Nat) (o : GenOutcome) :
    (V2.generateAssessment_run t o).1 = some (V2.generateAssessment_run t o).2 ∧
    (match o with
     | .ok (some qs) => (V2.generateAssessment_run t o).2.length = qs.length
     | .ok none => (V2.generateAssessment_run t o).2.length = 1
     | .err => (V2.generateAssessment_run t o).2.length = 1) := by
  rcases o with ⟨_ | qs⟩ | _ <;> simp [V2.generateAssessment_run]

end LMSDemo
